import Mathlib

/-!
Shallow embedding of `bimmer_connected/vehicle/remote_services.py` and
`bimmer_connected/api/regions.py`.

Network interaction is modelled by an environment of scripted server
responses (`ServerEnv`); every operation additionally returns, in order, the
list of network requests and cooperative sleeps it performs, so that claims
about "no network call", "no further polls" or "a refresh is triggered" are
statements about that event list.  Time is idealised: each loop iteration
advances the clock by exactly the sleep it performs and polls take no time.
-/

/-- JSON values as exchanged by the remote-service endpoints: strings, and
one level of string-valued objects (the only shapes these endpoints use).
Status fields (`eventStatus`) are modelled as strings. -/
inductive JsonVal where
  | str (value : String)
  | obj (fields : List (String × String))
deriving DecidableEq

/-- A JSON object (a Python `dict`), as an ordered association list. -/
abbrev JsonDict := List (String × JsonVal)

/-- `ExecutionState` of `remote_services.py`.  Modelled from the spec: the
`StrEnum` base class converting server strings into this enumeration lives in
`models.py`, which is not among the analysed sources; per the fail-open
policy of the spec, a server value outside the enumerated set is kept as-is (constructor
`other`) instead of being absent. -/
inductive ExecutionState where
  | INITIATED
  | PENDING
  | DELIVERED
  | EXECUTED
  | ERROR
  | UNKNOWN
  | other (value : String)
deriving DecidableEq

/-- Conversion of a server status string into an `ExecutionState`.  The six
enumerated values map to themselves, anything else is kept (fail-open). -/
def ExecutionState.ofString : String → ExecutionState
  | "INITIATED" => ExecutionState.INITIATED
  | "PENDING" => ExecutionState.PENDING
  | "DELIVERED" => ExecutionState.DELIVERED
  | "EXECUTED" => ExecutionState.EXECUTED
  | "ERROR" => ExecutionState.ERROR
  | "UNKNOWN" => ExecutionState.UNKNOWN
  | s => ExecutionState.other s

/-- Python `status or "UNKNOWN"` on the value read from the response:
an absent key (`None`) and falsy values (empty string, empty object) fall
back to `"UNKNOWN"`; status values themselves are strings. -/
def eventStatusValue : Option JsonVal → String
  | some (JsonVal.str s) => if s = "" then "UNKNOWN" else s
  | _ => "UNKNOWN"

/-- `RemoteServiceStatus`: wraps the status of the execution of a remote
service; `state` is read from `eventStatus` (defaulting to UNKNOWN) and
`details` keeps the raw response unchanged. -/
structure RemoteServiceStatus where
  state : ExecutionState
  details : JsonDict
deriving DecidableEq

/-- `RemoteServiceStatus.__init__`: `status = response.get("eventStatus")`
(when the key is present), then `state = ExecutionState(status or "UNKNOWN")`
and `details = response`. -/
def RemoteServiceStatus.ofResponse (response : JsonDict) : RemoteServiceStatus :=
  { state := ExecutionState.ofString (eventStatusValue (response.lookup "eventStatus")),
    details := response }

/-- The state a given poll response parses to. -/
abbrev stateOf (response : JsonDict) : ExecutionState :=
  (RemoteServiceStatus.ofResponse response).state

/-- Failure outcomes of the remote-service operations.
`remoteServiceFailed` models the `Exception` raised on an ERROR poll (its
message carries the state and the raw response), `pollingTimedOut` the
`TimeoutError` (its message carries the event id and the last polled state),
and `invalidParameter` the `ValueError`s of parameter validation. -/
inductive RemoteServiceError where
  | invalidParameter (message : String)
  | remoteServiceFailed (state : ExecutionState) (details : JsonDict)
  | pollingTimedOut (eventId : Option String) (lastState : Option ExecutionState)
deriving DecidableEq

/-- One network request or cooperative sleep performed by an operation. -/
inductive NetEvent where
  | sleep (seconds : Nat)
  | submit (serviceType : String) (vin : String) (params : Option JsonDict)
  | pollStatus (eventId : Option String) (vin : String)
  | chargingSettingsPost (vin : String) (chargingTarget : Option Int) (acLimitValue : Option Int)
  | poiPost (vin : String)
  | positionPost (eventId : Option String)
  | refreshVehicles
deriving DecidableEq

/-- `Services`: enumeration of possible services to be executed. -/
inductive Services where
  | LIGHT_FLASH
  | VEHICLE_FINDER
  | DOOR_LOCK
  | DOOR_UNLOCK
  | HORN
  | AIR_CONDITIONING
  | CHARGE_NOW
deriving DecidableEq

/-- The string value of each `Services` member. -/
def Services.value : Services → String
  | Services.LIGHT_FLASH => "light-flash"
  | Services.VEHICLE_FINDER => "vehicle-finder"
  | Services.DOOR_LOCK => "door-lock"
  | Services.DOOR_UNLOCK => "door-unlock"
  | Services.HORN => "horn-blow"
  | Services.AIR_CONDITIONING => "climate-now"
  | Services.CHARGE_NOW => "CHARGE_NOW"

/-- `_POLLING_CYCLE`: seconds between polling updates. -/
def POLLING_CYCLE : Nat := 3

/-- `_POLLING_TIMEOUT`: maximum seconds to wait for a final answer. -/
def POLLING_TIMEOUT : Nat := 240

/-- The states on which `_block_until_done` keeps polling:
`status.state not in [UNKNOWN, PENDING, DELIVERED]` returns. -/
def nonTerminalStates : List ExecutionState :=
  [ExecutionState.UNKNOWN, ExecutionState.PENDING, ExecutionState.DELIVERED]

/-- The loop body of `_block_until_done`.  `poll i` is the response of the
i-th status request, `now` the elapsed time at the loop-condition check, and
the result carries the number of polls issued and the event trace.  The
`fuel` argument only makes the recursion structural: initialised to
`POLLING_TIMEOUT` it can never run out, because every iteration requires
`now < POLLING_TIMEOUT` and advances `now` by `POLLING_CYCLE ≥ 1`; its
exhaustion branch coincides with the timeout branch. -/
def blockLoop (poll : Nat → JsonDict) (vin : String) (eventId : Option String) :
    Nat → Nat → Nat → Option ExecutionState →
      Except RemoteServiceError RemoteServiceStatus × Nat × List NetEvent
  | 0, i, _, last => (Except.error (RemoteServiceError.pollingTimedOut eventId last), i, [])
  | fuel + 1, i, now, last =>
      if now < POLLING_TIMEOUT then
        let status := RemoteServiceStatus.ofResponse (poll i)
        if status.state = ExecutionState.ERROR then
          (Except.error (RemoteServiceError.remoteServiceFailed status.state status.details),
            i + 1, [NetEvent.sleep POLLING_CYCLE, NetEvent.pollStatus eventId vin])
        else if status.state ∈ nonTerminalStates then
          let rest := blockLoop poll vin eventId fuel (i + 1) (now + POLLING_CYCLE)
            (some status.state)
          (rest.1, rest.2.1,
            NetEvent.sleep POLLING_CYCLE :: NetEvent.pollStatus eventId vin :: rest.2.2)
        else
          (Except.ok status, i + 1,
            [NetEvent.sleep POLLING_CYCLE, NetEvent.pollStatus eventId vin])
      else
        (Except.error (RemoteServiceError.pollingTimedOut eventId last), i, [])

/-- `_block_until_done`: keep polling until a final answer, starting with no
elapsed time and no previously seen state. -/
def blockUntilDone (poll : Nat → JsonDict) (vin : String) (eventId : Option String) :
    Except RemoteServiceError RemoteServiceStatus × Nat × List NetEvent :=
  blockLoop poll vin eventId POLLING_TIMEOUT 0 0 none

/-- The event trace of `m` consecutive poll iterations (each one a sleep of
`_POLLING_CYCLE` followed by a status request). -/
def pollEvents (vin : String) (eventId : Option String) : Nat → List NetEvent
  | 0 => []
  | m + 1 =>
      NetEvent.sleep POLLING_CYCLE :: NetEvent.pollStatus eventId vin ::
        pollEvents vin eventId m

/-- Observer position (`latitude`/`longitude`) from the account configuration. -/
structure ObserverPosition where
  latitude : Int
  longitude : Int
deriving DecidableEq

/-- Scripted server behaviour: the `eventId` field of the submission
response (absent when the server omits it), the response of each status
poll, and the response of the position-resolution endpoint. -/
structure ServerEnv where
  submitEventId : Option String
  pollResponses : Nat → JsonDict
  positionResponse : JsonDict

/-- The account-side configuration the operations read. -/
structure AccountEnv where
  observer_position : Option ObserverPosition

/-- `charging_profile.ac_available_limits` of the vehicle. -/
structure ChargingProfile where
  ac_available_limits : List Int
deriving DecidableEq

/-- The vehicle fields `trigger_charging_settings_update` reads. -/
structure VehicleEnv where
  vin : String
  is_charging_target_soc_enabled : Bool
  is_charging_ac_limit_enabled : Bool
  charging_profile : Option ChargingProfile
deriving DecidableEq

/-- Result type of a remote-service operation. -/
abbrev ServiceResult := Except RemoteServiceError RemoteServiceStatus

/-- `_start_remote_service`: posts to the remote-service URL and returns
`response.json().get("eventId")` — an `Option`, with no error when the field
is absent. -/
def startRemoteService (server : ServerEnv) (vin : String) (service : Services)
    (params : Option JsonDict) : Option String × List NetEvent :=
  (server.submitEventId, [NetEvent.submit service.value vin params])

/-- `trigger_remote_service`: submit, then block until done. -/
def triggerRemoteService (server : ServerEnv) (vin : String) (service : Services)
    (params : Option JsonDict) : ServiceResult × Nat × List NetEvent :=
  let submitted := startRemoteService server vin service params
  let polled := blockUntilDone server.pollResponses vin submitted.1
  (polled.1, polled.2.1, submitted.2 ++ polled.2.2)

/-- `_trigger_state_update`: sleep for `2 * _POLLING_CYCLE`, then
force-refresh all vehicles through the owning account. -/
def triggerStateUpdate : List NetEvent :=
  [NetEvent.sleep (POLLING_CYCLE * 2), NetEvent.refreshVehicles]

/-- Outcome of one public operation: its result, the number of status polls
issued, the ordered event trace, and (for the vehicle finder) the payload
written to `vehicle_location.set_remote_service_position`. -/
structure OpOutcome where
  result : ServiceResult
  polls : Nat
  events : List NetEvent
  locationSet : Option JsonDict := none

/-- Shared epilogue of the operations that call `_trigger_state_update`
after the remote service succeeds; on failure the exception propagates and
no refresh happens. -/
def withStateUpdate (x : ServiceResult × Nat × List NetEvent) : OpOutcome :=
  match x.1 with
  | Except.ok status =>
      { result := Except.ok status, polls := x.2.1, events := x.2.2 ++ triggerStateUpdate }
  | Except.error e => { result := Except.error e, polls := x.2.1, events := x.2.2 }

/-- `trigger_remote_light_flash`: no state update afterwards. -/
def triggerRemoteLightFlash (server : ServerEnv) (vin : String) : OpOutcome :=
  let x := triggerRemoteService server vin Services.LIGHT_FLASH none
  { result := x.1, polls := x.2.1, events := x.2.2 }

/-- `trigger_remote_door_lock`: state update after success. -/
def triggerRemoteDoorLock (server : ServerEnv) (vin : String) : OpOutcome :=
  withStateUpdate (triggerRemoteService server vin Services.DOOR_LOCK none)

/-- `trigger_remote_door_unlock`: state update after success. -/
def triggerRemoteDoorUnlock (server : ServerEnv) (vin : String) : OpOutcome :=
  withStateUpdate (triggerRemoteService server vin Services.DOOR_UNLOCK none)

/-- `trigger_remote_horn`: no state update afterwards. -/
def triggerRemoteHorn (server : ServerEnv) (vin : String) : OpOutcome :=
  let x := triggerRemoteService server vin Services.HORN none
  { result := x.1, polls := x.2.1, events := x.2.2 }

/-- `trigger_charge_now`: state update after success. -/
def triggerChargeNow (server : ServerEnv) (vin : String) : OpOutcome :=
  withStateUpdate (triggerRemoteService server vin Services.CHARGE_NOW none)

/-- `trigger_remote_air_conditioning`: climate start, state update after
success. -/
def triggerRemoteAirConditioning (server : ServerEnv) (vin : String) : OpOutcome :=
  withStateUpdate (triggerRemoteService server vin Services.AIR_CONDITIONING
    (some [("action", JsonVal.str "START")]))

/-- `trigger_remote_air_conditioning_stop`: climate stop, state update after
success. -/
def triggerRemoteAirConditioningStop (server : ServerEnv) (vin : String) : OpOutcome :=
  withStateUpdate (triggerRemoteService server vin Services.AIR_CONDITIONING
    (some [("action", JsonVal.str "STOP")]))

/-- Python truthiness of an `Optional[int]`: `None` and `0` are falsy. -/
def truthyInt : Option Int → Bool
  | none => false
  | some v => decide (v ≠ 0)

/-- The range/multiple check on `target_soc` (the `isinstance` part is
vacuous in the typed model): `target_soc < 20 or target_soc > 100 or
target_soc % 5 != 0`. -/
def targetSocRangeBad : Option Int → Bool
  | none => false
  | some v => decide (v < 20) || decide (100 < v) || decide (v % 5 ≠ 0)

/-- The available AC limits of the vehicle (empty when no charging profile is
known). -/
def acAvailableLimits (vehicle : VehicleEnv) : List Int :=
  match vehicle.charging_profile with
  | some profile => profile.ac_available_limits
  | none => []

/-- `not ...is_charging_ac_limit_enabled or not ...charging_profile or not
...charging_profile.ac_available_limits` (Python falsiness of the list). -/
def acLimitUnsupported (vehicle : VehicleEnv) : Bool :=
  !vehicle.is_charging_ac_limit_enabled || vehicle.charging_profile.isNone ||
    (acAvailableLimits vehicle).isEmpty

/-- `ac_limit not in charging_profile.ac_available_limits` (the `isinstance`
part is vacuous in the typed model). -/
def acLimitNotAvailable : Option Int → VehicleEnv → Bool
  | none, _ => false
  | some a, vehicle => !decide (a ∈ acAvailableLimits vehicle)

/-- `trigger_charging_settings_update`: four sequential validation guards
(each raising `ValueError` before any network call), then the settings POST,
`_block_until_done` on the `eventId` of the response, and a state update. -/
def triggerChargingSettingsUpdate (server : ServerEnv) (vehicle : VehicleEnv)
    (target_soc ac_limit : Option Int) : OpOutcome :=
  if truthyInt target_soc && !vehicle.is_charging_target_soc_enabled then
    { result := Except.error
        (RemoteServiceError.invalidParameter "Vehicle does not support setting target SoC."),
      polls := 0, events := [] }
  else if truthyInt target_soc && targetSocRangeBad target_soc then
    { result := Except.error (RemoteServiceError.invalidParameter
        "Target SoC must be an integer between 20 and 100 that is a multiple of 5."),
      polls := 0, events := [] }
  else if truthyInt ac_limit && acLimitUnsupported vehicle then
    { result := Except.error
        (RemoteServiceError.invalidParameter "Vehicle does not support setting AC Limit."),
      polls := 0, events := [] }
  else if truthyInt ac_limit && acLimitNotAvailable ac_limit vehicle then
    { result := Except.error (RemoteServiceError.invalidParameter
        "AC Limit must be an integer and in `charging_profile.ac_available_limits`."),
      polls := 0, events := [] }
  else
    let submitEvents := [NetEvent.chargingSettingsPost vehicle.vin target_soc ac_limit]
    let polled := blockUntilDone server.pollResponses vehicle.vin server.submitEventId
    withStateUpdate (polled.1, polled.2.1, submitEvents ++ polled.2.2)

/-- `trigger_send_poi`: a single POST of the point of interest; no event id,
no polling; returns `RemoteServiceStatus({"eventStatus": "EXECUTED"})`. -/
def triggerSendPoi (vin : String) : OpOutcome :=
  { result := Except.ok
      (RemoteServiceStatus.ofResponse [("eventStatus", JsonVal.str "EXECUTED")]),
    polls := 0, events := [NetEvent.poiPost vin] }

/-- The payload `_get_event_position` synthesizes when no observer position
is configured. -/
def unknownPositionPayload : JsonDict :=
  [("errorDetails", JsonVal.obj
      [("title", "Unknown position"),
       ("description", "Set observer position to retrieve vehicle coordinates!")])]

/-- `_get_event_position`: without an observer position, return the
synthesized error payload and make no network call; otherwise POST to the
position endpoint. -/
def getEventPosition (account : AccountEnv) (server : ServerEnv)
    (eventId : Option String) : JsonDict × List NetEvent :=
  if account.observer_position.isNone then (unknownPositionPayload, [])
  else (server.positionResponse, [NetEvent.positionPost eventId])

/-- `trigger_remote_vehicle_finder`: submit + poll, then resolve the event
position and apply it to `vehicle_location`; a poll failure propagates
before the position step. -/
def triggerRemoteVehicleFinder (account : AccountEnv) (server : ServerEnv)
    (vin : String) : OpOutcome :=
  let submitted := startRemoteService server vin Services.VEHICLE_FINDER none
  let polled := blockUntilDone server.pollResponses vin submitted.1
  match polled.1 with
  | Except.error e =>
      { result := Except.error e, polls := polled.2.1, events := submitted.2 ++ polled.2.2 }
  | Except.ok status =>
      let position := getEventPosition account server submitted.1
      { result := Except.ok status, polls := polled.2.1,
        events := submitted.2 ++ polled.2.2 ++ position.2,
        locationSet := some position.1 }

/-- Python `str.lower()`, modelled character-wise (`Char.toLower`, ASCII
A-Z; the region names are ASCII identifiers). -/
def str_lower (s : String) : String :=
  String.mk (s.data.map Char.toLower)

/-- `valid_regions` of `regions.py`: the lowercased name of every member of
the `Regions` enumeration.  Modelled from the spec: the `Regions`
enumeration itself lives in `const.py`, outside the analysed sources, so it
is abstracted to the list of its member names, passed as an argument. -/
def valid_regions (regionNames : List String) : List String :=
  regionNames.map str_lower

/-- `get_region_from_name`: first member whose name matches
case-insensitively; `ValueError` when none does. -/
def get_region_from_name (regionNames : List String) (name : String) :
    Except String String :=
  match regionNames.find? (fun region => str_lower name == str_lower region) with
  | some region => Except.ok region
  | none => Except.error ("Unknown region " ++ name ++ ". Valid regions are: "
      ++ String.intercalate "," (valid_regions regionNames))

/-- Vehicle with every charging capability enabled and a known
available-limits set (fixture). -/
def vehicleFull : VehicleEnv :=
  { vin := "VIN1", is_charging_target_soc_enabled := true,
    is_charging_ac_limit_enabled := true,
    charging_profile := some { ac_available_limits := [6, 16, 32] } }

/-- Server that acknowledges submission and reports EXECUTED on the first
poll (fixture). -/
def serverOk : ServerEnv :=
  { submitEventId := some "event-0",
    pollResponses := fun _ => [("eventStatus", JsonVal.str "EXECUTED")],
    positionResponse := [("positionData", JsonVal.str "ok")] }

/-- Server whose submission response has no `eventId` field (fixture). -/
def serverNoEventId : ServerEnv :=
  { submitEventId := none,
    pollResponses := fun _ => [("eventStatus", JsonVal.str "EXECUTED")],
    positionResponse := [] }

/-- Poll trace: PENDING twice, then a status value outside the enumerated
set (fixture). -/
def pollTerminalAt2 : Nat → JsonDict := fun j =>
  if j < 2 then [("eventStatus", JsonVal.str "PENDING")]
  else [("eventStatus", JsonVal.str "SOME_NEW_STATE")]

/-- Server whose polls report PENDING once and then ERROR with a diagnostic
payload (fixture). -/
def serverPendingThenError : ServerEnv :=
  { submitEventId := some "event-3",
    pollResponses := fun j =>
      if j = 0 then [("eventStatus", JsonVal.str "PENDING")]
      else [("eventStatus", JsonVal.str "ERROR"), ("reason", JsonVal.str "vehicle offline")],
    positionResponse := [] }

/-- Poll trace that reports PENDING forever (fixture). -/
def pollAllPending : Nat → JsonDict := fun _ => [("eventStatus", JsonVal.str "PENDING")]

/-- Account with no observer position configured (fixture). -/
def accountNoObserver : AccountEnv := { observer_position := none }

/-- Server acknowledging submission, EXECUTED on first poll, and a position
payload (fixture). -/
def serverForFinder : ServerEnv :=
  { submitEventId := some "event-7",
    pollResponses := fun _ => [("eventStatus", JsonVal.str "EXECUTED")],
    positionResponse := [("coordinates", JsonVal.str "48.13,11.58")] }

/-- Server reporting EXECUTED on the first poll (fixture). -/
def serverExecOk : ServerEnv :=
  { submitEventId := some "event-8",
    pollResponses := fun _ => [("eventStatus", JsonVal.str "EXECUTED")],
    positionResponse := [] }

/-- Vehicle fixture for the state-refresh policy. -/
def vehicleForC8 : VehicleEnv :=
  { vin := "VIN8", is_charging_target_soc_enabled := true,
    is_charging_ac_limit_enabled := true,
    charging_profile := some { ac_available_limits := [16, 32] } }

/-- Modelled from the spec: concrete member names for the `Regions`
enumeration of `const.py` (not among the analysed sources), used only to
instantiate the parametric region theorems (fixture). -/
def REGION_NAMES : List String := ["NORTH_AMERICA", "CHINA", "REST_OF_WORLD"]

/-- Membership in the non-terminal list excludes ERROR. -/
theorem mem_nonTerminalStates_ne_ERROR {s : ExecutionState}
    (h : s ∈ nonTerminalStates) : s ≠ ExecutionState.ERROR := by
  simp only [nonTerminalStates, List.mem_cons, List.not_mem_nil, or_false] at h
  rcases h with h | h | h <;> subst h <;> simp

/-- If the first `k` polls are non-terminal and poll `k` is terminal (still
within the time budget), the loop stops right at poll `k`: on ERROR it fails
with the state and raw response, otherwise it returns the parsed status;
either way exactly `k + 1` polls are issued. -/
theorem blockLoop_terminal (poll : Nat → JsonDict) (vin : String) (eventId : Option String) :
    ∀ (k fuel i now : Nat) (last : Option ExecutionState),
      k < fuel → now + POLLING_CYCLE * k < POLLING_TIMEOUT →
      (∀ j, j < k → stateOf (poll (i + j)) ∈ nonTerminalStates) →
      stateOf (poll (i + k)) ∉ nonTerminalStates →
      blockLoop poll vin eventId fuel i now last =
        ((if stateOf (poll (i + k)) = ExecutionState.ERROR then
            Except.error (RemoteServiceError.remoteServiceFailed (stateOf (poll (i + k)))
              (poll (i + k)))
          else Except.ok (RemoteServiceStatus.ofResponse (poll (i + k)))),
          i + k + 1, pollEvents vin eventId (k + 1)) := by
  intro k
  induction k with
  | zero =>
    intro fuel i now last hfuel hnow hpre hterm
    obtain ⟨f, rfl⟩ : ∃ f, fuel = f + 1 := ⟨fuel - 1, by omega⟩
    have hlt : now < POLLING_TIMEOUT := by
      simp only [Nat.mul_zero, Nat.add_zero] at hnow; exact hnow
    simp only [Nat.add_zero] at hterm ⊢
    by_cases herr : stateOf (poll i) = ExecutionState.ERROR
    · simp only [stateOf, RemoteServiceStatus.ofResponse] at herr
      simp [blockLoop, hlt, herr, pollEvents, RemoteServiceStatus.ofResponse, stateOf]
    · simp only [stateOf, RemoteServiceStatus.ofResponse] at herr hterm
      simp [blockLoop, hlt, herr, hterm, pollEvents, RemoteServiceStatus.ofResponse, stateOf]
  | succ k ih =>
    intro fuel i now last hfuel hnow hpre hterm
    obtain ⟨f, rfl⟩ : ∃ f, fuel = f + 1 := ⟨fuel - 1, by omega⟩
    have hlt : now < POLLING_TIMEOUT := by
      have hcyc : 0 < POLLING_CYCLE * (k + 1) := by simp [POLLING_CYCLE]
      omega
    have h0 : stateOf (poll i) ∈ nonTerminalStates := by
      have := hpre 0 (Nat.succ_pos k)
      simpa using this
    have h0ne : stateOf (poll i) ≠ ExecutionState.ERROR := mem_nonTerminalStates_ne_ERROR h0
    have eidx : i + (k + 1) = i + 1 + k := by omega
    have hrec := ih f (i + 1) (now + POLLING_CYCLE) (some (stateOf (poll i)))
      (by omega)
      (by have : POLLING_CYCLE * (k + 1) = POLLING_CYCLE + POLLING_CYCLE * k := by ring
          omega)
      (fun j hj => by
        have := hpre (j + 1) (by omega)
        have e : i + (j + 1) = i + 1 + j := by omega
        rwa [e] at this)
      (by rwa [eidx] at hterm)
    simp only [blockLoop, if_pos hlt, if_neg h0ne, if_pos h0]
    rw [hrec]
    rw [eidx]
    simp [pollEvents]

/-- If every poll is non-terminal, the loop runs until the elapsed time
reaches the budget exactly and then times out, carrying the event id and the
last polled state. -/
theorem blockLoop_timeout (poll : Nat → JsonDict) (vin : String) (eventId : Option String)
    (hall : ∀ j, stateOf (poll j) ∈ nonTerminalStates) :
    ∀ (d fuel i now : Nat) (last : Option ExecutionState),
      d ≤ fuel → now + POLLING_CYCLE * d = POLLING_TIMEOUT →
      blockLoop poll vin eventId fuel i now last =
        (Except.error (RemoteServiceError.pollingTimedOut eventId
            (if d = 0 then last else some (stateOf (poll (i + d - 1))))),
          i + d, pollEvents vin eventId d) := by
  intro d
  induction d with
  | zero =>
    intro fuel i now last hfuel hnow
    have hge : ¬ now < POLLING_TIMEOUT := by
      simp only [Nat.mul_zero, Nat.add_zero] at hnow; omega
    cases fuel with
    | zero => simp [blockLoop, pollEvents]
    | succ f => simp [blockLoop, hge, pollEvents]
  | succ d ih =>
    intro fuel i now last hfuel hnow
    obtain ⟨f, rfl⟩ : ∃ f, fuel = f + 1 := ⟨fuel - 1, by omega⟩
    have hlt : now < POLLING_TIMEOUT := by
      have hcyc : 0 < POLLING_CYCLE * (d + 1) := by simp [POLLING_CYCLE]
      omega
    have h0 : stateOf (poll i) ∈ nonTerminalStates := hall i
    have h0ne : stateOf (poll i) ≠ ExecutionState.ERROR := mem_nonTerminalStates_ne_ERROR h0
    have hrec := ih f (i + 1) (now + POLLING_CYCLE) (some (stateOf (poll i)))
      (by omega)
      (by have : POLLING_CYCLE * (d + 1) = POLLING_CYCLE + POLLING_CYCLE * d := by ring
          omega)
    simp only [blockLoop, if_pos hlt, if_neg h0ne, if_pos h0]
    rw [hrec]
    cases d with
    | zero => simp [pollEvents]
    | succ e =>
      have e1 : i + 1 + (e + 1) - 1 = i + (e + 1 + 1) - 1 := by omega
      have e2 : i + 1 + (e + 1) = i + (e + 1 + 1) := by omega
      simp only [Nat.succ_ne_zero, if_false, e1, e2, pollEvents]

/-- The polling loop never requests a vehicle-state refresh. -/
theorem refreshVehicles_not_in_blockLoop (poll : Nat → JsonDict) (vin : String)
    (eventId : Option String) :
    ∀ (fuel i now : Nat) (last : Option ExecutionState),
      NetEvent.refreshVehicles ∉ (blockLoop poll vin eventId fuel i now last).2.2 := by
  intro fuel
  induction fuel with
  | zero => intro i now last; simp [blockLoop]
  | succ f ih =>
    intro i now last
    by_cases hlt : now < POLLING_TIMEOUT
    · by_cases herr : (RemoteServiceStatus.ofResponse (poll i)).state = ExecutionState.ERROR
      · simp [blockLoop, hlt, herr]
      · by_cases hmem : (RemoteServiceStatus.ofResponse (poll i)).state ∈ nonTerminalStates
        · simp only [blockLoop, if_pos hlt, if_neg herr, if_pos hmem]
          simp only [List.mem_cons, not_or]
          exact ⟨by simp, by simp, ih (i + 1) (now + POLLING_CYCLE) (some _)⟩
        · simp [blockLoop, hlt, herr, hmem]
    · simp [blockLoop, hlt]

/-- Poll-iteration traces never contain a vehicle-state refresh. -/
theorem refreshVehicles_not_in_pollEvents (vin : String) (eventId : Option String) :
    ∀ m, NetEvent.refreshVehicles ∉ pollEvents vin eventId m := by
  intro m
  induction m with
  | zero => simp [pollEvents]
  | succ m ih => simp [pollEvents, ih]

/-- When the lowercased member names are distinct, the first
case-insensitive match of a member name is that member itself. -/
theorem find_region_of_mem :
    ∀ (regionNames : List String) (region s : String),
      (regionNames.map str_lower).Nodup → region ∈ regionNames →
      str_lower s = str_lower region →
      regionNames.find? (fun r => str_lower s == str_lower r) = some region := by
  intro regionNames
  induction regionNames with
  | nil => intro region s _ h; simp at h
  | cons head tail ih =>
    intro region s hnd hmem hs
    simp only [List.map_cons, List.nodup_cons] at hnd
    obtain ⟨hhead, htail⟩ := hnd
    rcases List.mem_cons.mp hmem with rfl | hmem2
    · have htrue : (str_lower s == str_lower region) = true := by simp [hs]
      simp only [List.find?, htrue]
    · have hfalse : (str_lower s == str_lower head) = false := by
        simp only [beq_eq_false_iff_ne, ne_eq]
        intro hcon
        apply hhead
        rw [← hcon, hs]
        exact List.mem_map_of_mem str_lower hmem2
      simp only [List.find?, hfalse]
      exact ih region s htail hmem2 hs

/-- C3: polling is terminal-by-exclusion — the loop continues only on a
state in {UNKNOWN, PENDING, DELIVERED}; EXECUTED and any other value
(including values outside the enumerated set, other than ERROR) ends
polling at that very poll and is returned to the caller as the result. -/
theorem c3_terminal_by_exclusion (poll : Nat → JsonDict) (vin : String)
    (eventId : Option String) (k : Nat)
    (hbudget : POLLING_CYCLE * k < POLLING_TIMEOUT)
    (hpre : ∀ j, j < k → stateOf (poll j) ∈ nonTerminalStates)
    (hterm : stateOf (poll k) ∉ nonTerminalStates)
    (hne : stateOf (poll k) ≠ ExecutionState.ERROR) :
    (blockUntilDone poll vin eventId).1
        = Except.ok (RemoteServiceStatus.ofResponse (poll k))
      ∧ (blockUntilDone poll vin eventId).2.1 = k + 1 := by
  have hfuel : k < POLLING_TIMEOUT := by
    have : 0 < POLLING_CYCLE := by simp [POLLING_CYCLE]
    calc k ≤ POLLING_CYCLE * k := Nat.le_mul_of_pos_left k this
    _ < POLLING_TIMEOUT := hbudget
  have h := blockLoop_terminal poll vin eventId k POLLING_TIMEOUT 0 0 none
    hfuel (by simpa using hbudget) (by simpa using hpre) (by simpa using hterm)
  simp only [Nat.zero_add] at h
  rw [if_neg hne] at h
  rw [blockUntilDone, h]
  exact ⟨rfl, rfl⟩

/-- C3 witness: with PENDING, PENDING and then the unrecognized status
value SOME_NEW_STATE, polling stops at the third poll and returns it. -/
theorem c3_witness :
    (blockUntilDone pollTerminalAt2 "WBA1" (some "event-1")).1
        = Except.ok (RemoteServiceStatus.ofResponse (pollTerminalAt2 2))
      ∧ (blockUntilDone pollTerminalAt2 "WBA1" (some "event-1")).2.1 = 2 + 1 :=
  c3_terminal_by_exclusion pollTerminalAt2 "WBA1" (some "event-1") 2
    (by decide) (by decide) (by decide) (by decide)

/-- C5: if every poll reports a non-terminal state, the loop times out with
`pollingTimedOut` carrying the identifier and the last polled state, after
exactly 80 polls, i.e. exactly when the elapsed time (one POLLING_CYCLE
sleep before each poll) first reaches the POLLING_TIMEOUT budget and never
earlier. -/
theorem c5_timeout_exactly_at_budget (poll : Nat → JsonDict) (vin : String)
    (eventId : Option String)
    (hall : ∀ j, stateOf (poll j) ∈ nonTerminalStates) :
    blockUntilDone poll vin eventId
        = (Except.error (RemoteServiceError.pollingTimedOut eventId
            (some (stateOf (poll 79)))), 80, pollEvents vin eventId 80)
      ∧ POLLING_CYCLE * 80 = POLLING_TIMEOUT := by
  constructor
  · have h := blockLoop_timeout poll vin eventId hall 80 POLLING_TIMEOUT 0 0 none
      (by simp [POLLING_TIMEOUT]) (by simp [POLLING_CYCLE, POLLING_TIMEOUT])
    rw [blockUntilDone, h]
    norm_num
  · decide

/-- C5 witness: a trace that reports PENDING forever times out after
exactly 80 polls with the last state PENDING. -/
theorem c5_witness :
    blockUntilDone pollAllPending "WBA2" (some "event-2")
        = (Except.error (RemoteServiceError.pollingTimedOut (some "event-2")
            (some (stateOf (pollAllPending 79)))), 80,
            pollEvents "WBA2" (some "event-2") 80)
      ∧ POLLING_CYCLE * 80 = POLLING_TIMEOUT :=
  c5_timeout_exactly_at_budget pollAllPending "WBA2" (some "event-2")
    (fun j => by simp only [pollAllPending]; decide)

/-- C4: if the polls up to `k` are non-terminal and poll `k` reports ERROR
(within the budget), climate-start fails with `remoteServiceFailed` carrying
the ERROR state and the raw diagnostic response, exactly `k + 1` polls are
issued (none after the ERROR), and no vehicle-state refresh happens. -/
theorem c4_error_fails_immediately (server : ServerEnv) (vin : String) (k : Nat)
    (hbudget : POLLING_CYCLE * k < POLLING_TIMEOUT)
    (hpre : ∀ j, j < k → stateOf (server.pollResponses j) ∈ nonTerminalStates)
    (herr : stateOf (server.pollResponses k) = ExecutionState.ERROR) :
    (triggerRemoteAirConditioning server vin).result
        = Except.error (RemoteServiceError.remoteServiceFailed ExecutionState.ERROR
            (server.pollResponses k))
      ∧ (triggerRemoteAirConditioning server vin).polls = k + 1
      ∧ NetEvent.refreshVehicles ∉ (triggerRemoteAirConditioning server vin).events := by
  have hterm : stateOf (server.pollResponses k) ∉ nonTerminalStates := by
    rw [herr]; decide
  have hfuel : k < POLLING_TIMEOUT := by
    have : 0 < POLLING_CYCLE := by simp [POLLING_CYCLE]
    calc k ≤ POLLING_CYCLE * k := Nat.le_mul_of_pos_left k this
    _ < POLLING_TIMEOUT := hbudget
  have h := blockLoop_terminal server.pollResponses vin server.submitEventId k
    POLLING_TIMEOUT 0 0 none hfuel (by simpa using hbudget) (by simpa using hpre)
    (by simpa using hterm)
  simp only [Nat.zero_add] at h
  rw [if_pos herr, herr] at h
  simp only [triggerRemoteAirConditioning, triggerRemoteService, startRemoteService,
    blockUntilDone, withStateUpdate]
  rw [h]
  refine ⟨rfl, rfl, ?_⟩
  simp only [List.cons_append, List.nil_append, List.mem_cons, not_or]
  exact ⟨by simp, refreshVehicles_not_in_pollEvents vin server.submitEventId (k + 1)⟩

/-- C4 witness: climate-start with poll sequence [PENDING, ERROR] fails with
the diagnostic payload after exactly two polls and triggers no refresh. -/
theorem c4_witness :
    (triggerRemoteAirConditioning serverPendingThenError "WBA3").result
        = Except.error (RemoteServiceError.remoteServiceFailed ExecutionState.ERROR
            (serverPendingThenError.pollResponses 1))
      ∧ (triggerRemoteAirConditioning serverPendingThenError "WBA3").polls = 1 + 1
      ∧ NetEvent.refreshVehicles
          ∉ (triggerRemoteAirConditioning serverPendingThenError "WBA3").events :=
  c4_error_fails_immediately serverPendingThenError "WBA3" 1
    (by decide) (by decide) (by decide)

/-- C2 counterexample: the submission response of `serverNoEventId` has no
`eventId` field, yet the command does not fail — a status poll is issued
with identifier `None` and the operation completes successfully, so no
`ProtocolError` is raised before polling. -/
theorem c2_counterexample :
    serverNoEventId.submitEventId = none
      ∧ (triggerRemoteService serverNoEventId "WBA4" Services.DOOR_LOCK none).1
          = Except.ok (RemoteServiceStatus.ofResponse
              [("eventStatus", JsonVal.str "EXECUTED")])
      ∧ (triggerRemoteService serverNoEventId "WBA4" Services.DOOR_LOCK none).2.1 = 1
      ∧ NetEvent.pollStatus none "WBA4"
          ∈ (triggerRemoteService serverNoEventId "WBA4" Services.DOOR_LOCK none).2.2 :=
  ⟨rfl, rfl, rfl, by decide⟩

/-- C2 (amended): when the submission response lacks the `eventId` field,
`_start_remote_service` raises no error — it returns `None` (the result of
`dict.get`) and polling proceeds with that missing identifier; the status
poll is issued with identifier `None` rather than being prevented. -/
theorem c2_missing_event_id_proceeds (server : ServerEnv) (vin : String)
    (service : Services) (params : Option JsonDict)
    (hid : server.submitEventId = none)
    (hterm : stateOf (server.pollResponses 0) ∉ nonTerminalStates)
    (hne : stateOf (server.pollResponses 0) ≠ ExecutionState.ERROR) :
    (triggerRemoteService server vin service params).1
        = Except.ok (RemoteServiceStatus.ofResponse (server.pollResponses 0))
      ∧ NetEvent.pollStatus none vin
          ∈ (triggerRemoteService server vin service params).2.2 := by
  have h := blockLoop_terminal server.pollResponses vin server.submitEventId 0
    POLLING_TIMEOUT 0 0 none (by simp [POLLING_TIMEOUT])
    (by simp [POLLING_CYCLE, POLLING_TIMEOUT]) (by simp) (by simpa using hterm)
  simp only [Nat.zero_add] at h
  rw [if_neg hne] at h
  simp only [triggerRemoteService, startRemoteService, blockUntilDone]
  rw [h, hid]
  exact ⟨rfl, by simp [pollEvents]⟩

/-- C2 witness: concrete run of the amended statement on `serverNoEventId`. -/
theorem c2_witness :
    (triggerRemoteService serverNoEventId "WBA5" Services.HORN none).1
        = Except.ok (RemoteServiceStatus.ofResponse (serverNoEventId.pollResponses 0))
      ∧ NetEvent.pollStatus none "WBA5"
          ∈ (triggerRemoteService serverNoEventId "WBA5" Services.HORN none).2.2 :=
  c2_missing_event_id_proceeds serverNoEventId "WBA5" Services.HORN none rfl
    (by decide) (by decide)

/-- C6: send-destination performs no status poll for any invocation — its
only network interaction is the single POI submission — and always returns
a synthesized status whose state is EXECUTED. -/
theorem c6_send_poi_no_poll (vin : String) :
    (triggerSendPoi vin).result
        = Except.ok (RemoteServiceStatus.mk ExecutionState.EXECUTED
            [("eventStatus", JsonVal.str "EXECUTED")])
      ∧ (triggerSendPoi vin).polls = 0
      ∧ (triggerSendPoi vin).events = [NetEvent.poiPost vin] :=
  ⟨rfl, rfl, rfl⟩

/-- C9: for every server response mapping, the constructed execution status
has a defined state — UNKNOWN when `eventStatus` is omitted — and the raw
response mapping is preserved unchanged as its details. -/
theorem c9_status_always_defined (response : JsonDict) :
    (RemoteServiceStatus.ofResponse response).details = response
      ∧ (response.lookup "eventStatus" = none →
          (RemoteServiceStatus.ofResponse response).state = ExecutionState.UNKNOWN) := by
  refine ⟨rfl, fun h => ?_⟩
  have hst : (RemoteServiceStatus.ofResponse response).state
      = ExecutionState.ofString (eventStatusValue (response.lookup "eventStatus")) := rfl
  rw [hst, h]
  rfl

/-- C9 witness: a response without `eventStatus` (even an error payload)
yields state UNKNOWN and keeps the response as details. -/
theorem c9_witness :
    (RemoteServiceStatus.ofResponse [("errorCode", JsonVal.str "500")]).details
        = [("errorCode", JsonVal.str "500")]
      ∧ (RemoteServiceStatus.ofResponse [("errorCode", JsonVal.str "500")]).state
        = ExecutionState.UNKNOWN :=
  ⟨(c9_status_always_defined [("errorCode", JsonVal.str "500")]).1,
    (c9_status_always_defined [("errorCode", JsonVal.str "500")]).2 rfl⟩

/-- C7: locate-vehicle with no observer position still runs the
submit-and-poll cycle (one submit, one poll here), makes no call to the
position-resolution endpoint, synthesizes an error payload carrying a title
and a description, and applies that payload to the location entity of the
vehicle exactly as a real position would be (via the same `locationSet`
channel). -/
theorem c7_finder_without_observer (account : AccountEnv) (server : ServerEnv)
    (vin : String)
    (hobs : account.observer_position = none)
    (hterm : stateOf (server.pollResponses 0) ∉ nonTerminalStates)
    (hne : stateOf (server.pollResponses 0) ≠ ExecutionState.ERROR) :
    (triggerRemoteVehicleFinder account server vin).locationSet
        = some unknownPositionPayload
      ∧ unknownPositionPayload.lookup "errorDetails"
          = some (JsonVal.obj
              [("title", "Unknown position"),
               ("description", "Set observer position to retrieve vehicle coordinates!")])
      ∧ (triggerRemoteVehicleFinder account server vin).events
          = [NetEvent.submit "vehicle-finder" vin none, NetEvent.sleep POLLING_CYCLE,
             NetEvent.pollStatus server.submitEventId vin]
      ∧ NetEvent.positionPost server.submitEventId
          ∉ (triggerRemoteVehicleFinder account server vin).events
      ∧ (triggerRemoteVehicleFinder account server vin).result
          = Except.ok (RemoteServiceStatus.ofResponse (server.pollResponses 0)) := by
  have h := blockLoop_terminal server.pollResponses vin server.submitEventId 0
    POLLING_TIMEOUT 0 0 none (by simp [POLLING_TIMEOUT])
    (by simp [POLLING_CYCLE, POLLING_TIMEOUT]) (by simp) (by simpa using hterm)
  simp only [Nat.zero_add] at h
  rw [if_neg hne] at h
  simp only [triggerRemoteVehicleFinder, startRemoteService, blockUntilDone,
    getEventPosition, hobs]
  rw [h]
  simp [pollEvents, Services.value]
  rfl

/-- C7 witness: concrete run with no observer position and an EXECUTED
first poll. -/
theorem c7_witness :
    (triggerRemoteVehicleFinder accountNoObserver serverForFinder "WBA6").locationSet
        = some unknownPositionPayload
      ∧ unknownPositionPayload.lookup "errorDetails"
          = some (JsonVal.obj
              [("title", "Unknown position"),
               ("description", "Set observer position to retrieve vehicle coordinates!")])
      ∧ (triggerRemoteVehicleFinder accountNoObserver serverForFinder "WBA6").events
          = [NetEvent.submit "vehicle-finder" "WBA6" none, NetEvent.sleep POLLING_CYCLE,
             NetEvent.pollStatus serverForFinder.submitEventId "WBA6"]
      ∧ NetEvent.positionPost serverForFinder.submitEventId
          ∉ (triggerRemoteVehicleFinder accountNoObserver serverForFinder "WBA6").events
      ∧ (triggerRemoteVehicleFinder accountNoObserver serverForFinder "WBA6").result
          = Except.ok (RemoteServiceStatus.ofResponse (serverForFinder.pollResponses 0)) :=
  c7_finder_without_observer accountNoObserver serverForFinder "WBA6" rfl
    (by decide) (by decide)

/-- C8: after a successful command (first poll terminal and not ERROR), the
six state-changing operations end their trace with the state refresh — a
sleep of exactly twice the poll cycle followed by the account-wide vehicle
refresh — while light-flash, horn and send-destination never refresh in any
environment. -/
theorem c8_state_refresh_policy (server : ServerEnv) (vin : String) (vehicle : VehicleEnv)
    (hterm : stateOf (server.pollResponses 0) ∉ nonTerminalStates)
    (hne : stateOf (server.pollResponses 0) ≠ ExecutionState.ERROR) :
    triggerStateUpdate = [NetEvent.sleep (POLLING_CYCLE * 2), NetEvent.refreshVehicles]
      ∧ (triggerRemoteDoorLock server vin).events
          = [NetEvent.submit "door-lock" vin none, NetEvent.sleep POLLING_CYCLE,
             NetEvent.pollStatus server.submitEventId vin] ++ triggerStateUpdate
      ∧ (triggerRemoteDoorUnlock server vin).events
          = [NetEvent.submit "door-unlock" vin none, NetEvent.sleep POLLING_CYCLE,
             NetEvent.pollStatus server.submitEventId vin] ++ triggerStateUpdate
      ∧ (triggerChargeNow server vin).events
          = [NetEvent.submit "CHARGE_NOW" vin none, NetEvent.sleep POLLING_CYCLE,
             NetEvent.pollStatus server.submitEventId vin] ++ triggerStateUpdate
      ∧ (triggerRemoteAirConditioning server vin).events
          = [NetEvent.submit "climate-now" vin (some [("action", JsonVal.str "START")]),
             NetEvent.sleep POLLING_CYCLE,
             NetEvent.pollStatus server.submitEventId vin] ++ triggerStateUpdate
      ∧ (triggerRemoteAirConditioningStop server vin).events
          = [NetEvent.submit "climate-now" vin (some [("action", JsonVal.str "STOP")]),
             NetEvent.sleep POLLING_CYCLE,
             NetEvent.pollStatus server.submitEventId vin] ++ triggerStateUpdate
      ∧ (triggerChargingSettingsUpdate server vehicle none none).events
          = [NetEvent.chargingSettingsPost vehicle.vin none none, NetEvent.sleep POLLING_CYCLE,
             NetEvent.pollStatus server.submitEventId vehicle.vin] ++ triggerStateUpdate
      ∧ (∀ (s2 : ServerEnv) (v2 : String),
          NetEvent.refreshVehicles ∉ (triggerRemoteLightFlash s2 v2).events)
      ∧ (∀ (s2 : ServerEnv) (v2 : String),
          NetEvent.refreshVehicles ∉ (triggerRemoteHorn s2 v2).events)
      ∧ (∀ v2 : String, NetEvent.refreshVehicles ∉ (triggerSendPoi v2).events) := by
  have h := fun (v : String) => blockLoop_terminal server.pollResponses v
    server.submitEventId 0 POLLING_TIMEOUT 0 0 none (by simp [POLLING_TIMEOUT])
    (by simp [POLLING_CYCLE, POLLING_TIMEOUT]) (by simp) (by simpa using hterm)
  have h1 := h vin
  have h2 := h vehicle.vin
  simp only [Nat.zero_add] at h1 h2
  rw [if_neg hne] at h1 h2
  refine ⟨rfl, ?_, ?_, ?_, ?_, ?_, ?_, ?_, ?_, ?_⟩
  · simp only [triggerRemoteDoorLock, triggerRemoteService, startRemoteService,
      blockUntilDone, withStateUpdate]
    rw [h1]
    simp [pollEvents, Services.value, triggerStateUpdate]
  · simp only [triggerRemoteDoorUnlock, triggerRemoteService, startRemoteService,
      blockUntilDone, withStateUpdate]
    rw [h1]
    simp [pollEvents, Services.value, triggerStateUpdate]
  · simp only [triggerChargeNow, triggerRemoteService, startRemoteService,
      blockUntilDone, withStateUpdate]
    rw [h1]
    simp [pollEvents, Services.value, triggerStateUpdate]
  · simp only [triggerRemoteAirConditioning, triggerRemoteService, startRemoteService,
      blockUntilDone, withStateUpdate]
    rw [h1]
    simp [pollEvents, Services.value, triggerStateUpdate]
  · simp only [triggerRemoteAirConditioningStop, triggerRemoteService, startRemoteService,
      blockUntilDone, withStateUpdate]
    rw [h1]
    simp [pollEvents, Services.value, triggerStateUpdate]
  · simp only [triggerChargingSettingsUpdate, truthyInt, Bool.false_and, if_false,
      blockUntilDone, withStateUpdate]
    rw [h2]
    simp [pollEvents, triggerStateUpdate]
  · intro s2 v2
    simp only [triggerRemoteLightFlash, triggerRemoteService, startRemoteService,
      blockUntilDone, List.cons_append, List.nil_append, List.mem_cons, not_or]
    exact ⟨by simp, refreshVehicles_not_in_blockLoop s2.pollResponses v2
      s2.submitEventId POLLING_TIMEOUT 0 0 none⟩
  · intro s2 v2
    simp only [triggerRemoteHorn, triggerRemoteService, startRemoteService,
      blockUntilDone, List.cons_append, List.nil_append, List.mem_cons, not_or]
    exact ⟨by simp, refreshVehicles_not_in_blockLoop s2.pollResponses v2
      s2.submitEventId POLLING_TIMEOUT 0 0 none⟩
  · intro v2
    simp [triggerSendPoi]

/-- C8 witness: the refresh policy on a concrete EXECUTED-first-poll
environment. -/
theorem c8_witness :
    triggerStateUpdate = [NetEvent.sleep (POLLING_CYCLE * 2), NetEvent.refreshVehicles]
      ∧ (triggerRemoteDoorLock serverExecOk "WBA8").events
          = [NetEvent.submit "door-lock" "WBA8" none, NetEvent.sleep POLLING_CYCLE,
             NetEvent.pollStatus serverExecOk.submitEventId "WBA8"] ++ triggerStateUpdate
      ∧ (triggerRemoteDoorUnlock serverExecOk "WBA8").events
          = [NetEvent.submit "door-unlock" "WBA8" none, NetEvent.sleep POLLING_CYCLE,
             NetEvent.pollStatus serverExecOk.submitEventId "WBA8"] ++ triggerStateUpdate
      ∧ (triggerChargeNow serverExecOk "WBA8").events
          = [NetEvent.submit "CHARGE_NOW" "WBA8" none, NetEvent.sleep POLLING_CYCLE,
             NetEvent.pollStatus serverExecOk.submitEventId "WBA8"] ++ triggerStateUpdate
      ∧ (triggerRemoteAirConditioning serverExecOk "WBA8").events
          = [NetEvent.submit "climate-now" "WBA8" (some [("action", JsonVal.str "START")]),
             NetEvent.sleep POLLING_CYCLE,
             NetEvent.pollStatus serverExecOk.submitEventId "WBA8"] ++ triggerStateUpdate
      ∧ (triggerRemoteAirConditioningStop serverExecOk "WBA8").events
          = [NetEvent.submit "climate-now" "WBA8" (some [("action", JsonVal.str "STOP")]),
             NetEvent.sleep POLLING_CYCLE,
             NetEvent.pollStatus serverExecOk.submitEventId "WBA8"] ++ triggerStateUpdate
      ∧ (triggerChargingSettingsUpdate serverExecOk vehicleForC8 none none).events
          = [NetEvent.chargingSettingsPost vehicleForC8.vin none none,
             NetEvent.sleep POLLING_CYCLE,
             NetEvent.pollStatus serverExecOk.submitEventId vehicleForC8.vin]
              ++ triggerStateUpdate
      ∧ (∀ (s2 : ServerEnv) (v2 : String),
          NetEvent.refreshVehicles ∉ (triggerRemoteLightFlash s2 v2).events)
      ∧ (∀ (s2 : ServerEnv) (v2 : String),
          NetEvent.refreshVehicles ∉ (triggerRemoteHorn s2 v2).events)
      ∧ (∀ v2 : String, NetEvent.refreshVehicles ∉ (triggerSendPoi v2).events) :=
  c8_state_refresh_policy serverExecOk "WBA8" vehicleForC8 (by decide) (by decide)

/-- C1 counterexample: `targetStateOfCharge = 0` lies outside [20, 100],
yet — because the guard uses Python truthiness (`if target_soc:`) and `0`
is falsy — validation is skipped entirely: no `ValueError` is raised, the
charging-settings POST happens (the trace is non-empty and starts with it)
and the operation completes successfully. -/
theorem c1_counterexample :
    ((0 : Int) < 20 ∨ 100 < (0 : Int) ∨ (0 : Int) % 5 ≠ 0)
      ∧ (triggerChargingSettingsUpdate serverOk vehicleFull (some 0) none).events
          = [NetEvent.chargingSettingsPost "VIN1" (some 0) none,
             NetEvent.sleep POLLING_CYCLE, NetEvent.pollStatus (some "event-0") "VIN1",
             NetEvent.sleep (POLLING_CYCLE * 2), NetEvent.refreshVehicles]
      ∧ (triggerChargingSettingsUpdate serverOk vehicleFull (some 0) none).result
          = Except.ok (RemoteServiceStatus.ofResponse
              [("eventStatus", JsonVal.str "EXECUTED")]) :=
  ⟨by decide, rfl, rfl⟩

/-- C1 (amended): a truthy (nonzero) `targetStateOfCharge` outside
[20, 100] or not a multiple of 5 is rejected with a `ValueError` before any
network call, whatever the capability flags (an unsupported vehicle rejects
it too, just with the capability message); and a truthy (nonzero) `acLimit`
not in the available-limits set of the vehicle is rejected before any network
call even when the AC-limit capability is enabled.  The value `0` is treated
as absent by the Python truthiness guards and bypasses validation. -/
theorem c1_validation_rejects_before_network (server : ServerEnv) (vehicle : VehicleEnv)
    (target_soc ac_limit : Option Int) :
    (∀ v : Int, target_soc = some v → v ≠ 0 → (v < 20 ∨ 100 < v ∨ v % 5 ≠ 0) →
        ∃ m, (triggerChargingSettingsUpdate server vehicle target_soc ac_limit).result
              = Except.error (RemoteServiceError.invalidParameter m)
          ∧ (triggerChargingSettingsUpdate server vehicle target_soc ac_limit).events = [])
      ∧ (∀ a : Int, ac_limit = some a → a ≠ 0 →
          vehicle.is_charging_ac_limit_enabled = true →
          a ∉ acAvailableLimits vehicle →
          ∃ m, (triggerChargingSettingsUpdate server vehicle target_soc ac_limit).result
              = Except.error (RemoteServiceError.invalidParameter m)
          ∧ (triggerChargingSettingsUpdate server vehicle target_soc ac_limit).events = []) := by
  constructor
  · rintro v rfl hv0 hbad
    have htr : truthyInt (some v) = true := by
      simp only [truthyInt, decide_eq_true_eq]
      exact hv0
    have hbadb : targetSocRangeBad (some v) = true := by
      simp only [targetSocRangeBad, Bool.or_eq_true, decide_eq_true_eq]
      tauto
    cases he : vehicle.is_charging_target_soc_enabled with
    | false =>
        refine ⟨"Vehicle does not support setting target SoC.", ?_, ?_⟩ <;>
          simp [triggerChargingSettingsUpdate, htr, he]
    | true =>
        refine ⟨"Target SoC must be an integer between 20 and 100 that is a multiple of 5.",
          ?_, ?_⟩ <;> simp [triggerChargingSettingsUpdate, htr, he, hbadb]
  · rintro a rfl ha0 hen hnotin
    have hat : truthyInt (some a) = true := by
      simp only [truthyInt, decide_eq_true_eq]
      exact ha0
    by_cases h1 : (truthyInt target_soc && !vehicle.is_charging_target_soc_enabled) = true
    · refine ⟨"Vehicle does not support setting target SoC.", ?_, ?_⟩ <;>
        simp [triggerChargingSettingsUpdate, h1]
    · by_cases h2 : (truthyInt target_soc && targetSocRangeBad target_soc) = true
      · refine ⟨"Target SoC must be an integer between 20 and 100 that is a multiple of 5.",
          ?_, ?_⟩ <;> simp [triggerChargingSettingsUpdate, h1, h2]
      · by_cases h3 : acLimitUnsupported vehicle = true
        · refine ⟨"Vehicle does not support setting AC Limit.", ?_, ?_⟩ <;>
            simp [triggerChargingSettingsUpdate, h1, h2, hat, h3]
        · have h4 : acLimitNotAvailable (some a) vehicle = true := by
            simp only [acLimitNotAvailable, Bool.not_eq_true']
            simp [hnotin]
          refine ⟨"AC Limit must be an integer and in `charging_profile.ac_available_limits`.",
            ?_, ?_⟩ <;> simp [triggerChargingSettingsUpdate, h1, h2, hat, h3, h4]

/-- C1 witness: target 57 (not a multiple of 5) is rejected with an empty
trace, and AC limit 13 (not in the available set [6, 16, 32]) is rejected
with an empty trace, on a fully capable vehicle. -/
theorem c1_witness :
    (∃ m, (triggerChargingSettingsUpdate serverOk vehicleFull (some 57) none).result
          = Except.error (RemoteServiceError.invalidParameter m)
      ∧ (triggerChargingSettingsUpdate serverOk vehicleFull (some 57) none).events = [])
      ∧ (∃ m, (triggerChargingSettingsUpdate serverOk vehicleFull none (some 13)).result
          = Except.error (RemoteServiceError.invalidParameter m)
      ∧ (triggerChargingSettingsUpdate serverOk vehicleFull none (some 13)).events = []) :=
  ⟨(c1_validation_rejects_before_network serverOk vehicleFull (some 57) none).1 57 rfl
      (by decide) (by decide),
    (c1_validation_rejects_before_network serverOk vehicleFull none (some 13)).2 13 rfl
      (by decide) rfl (by decide)⟩

/-- C10: for every enumeration whose lowercased member names are distinct
(as Python enum member names are), `get_region_from_name` maps every
casing of a member name back to that member — in particular each entry of
`valid_regions`, which lists the lowercased name of every member — and
raises `ValueError` on every string matching no member case-insensitively. -/
theorem c10_region_roundtrip (regionNames : List String)
    (hnd : (regionNames.map str_lower).Nodup) :
    (∀ region, region ∈ regionNames → ∀ s : String, str_lower s = str_lower region →
        get_region_from_name regionNames s = Except.ok region)
      ∧ (∀ s : String, (∀ region, region ∈ regionNames → str_lower s ≠ str_lower region) →
          get_region_from_name regionNames s
            = Except.error ("Unknown region " ++ s ++ ". Valid regions are: "
                ++ String.intercalate "," (valid_regions regionNames)))
      ∧ valid_regions regionNames = regionNames.map str_lower := by
  refine ⟨?_, ?_, rfl⟩
  · intro region hmem s hs
    rw [get_region_from_name, find_region_of_mem regionNames region s hnd hmem hs]
  · intro s hno
    have hfind : regionNames.find? (fun r => str_lower s == str_lower r) = none := by
      rw [List.find?_eq_none]
      intro r hr
      simp only [beq_eq_false_iff_ne, ne_eq, Bool.not_eq_true, beq_iff_eq]
      exact hno r hr
    rw [get_region_from_name, hfind]

/-- C10 witness: on the member names of the `Regions` enumeration, `China`
(any casing) maps to CHINA, the lowercased `valid_regions` entry
`rest_of_world` maps back to REST_OF_WORLD, and `mars` raises. -/
theorem c10_witness :
    get_region_from_name REGION_NAMES "China" = Except.ok "CHINA"
      ∧ get_region_from_name REGION_NAMES "rest_of_world" = Except.ok "REST_OF_WORLD"
      ∧ get_region_from_name REGION_NAMES "mars"
          = Except.error ("Unknown region " ++ "mars" ++ ". Valid regions are: "
              ++ String.intercalate "," (valid_regions REGION_NAMES)) :=
  ⟨(c10_region_roundtrip REGION_NAMES (by decide)).1 "CHINA" (by decide) "China" (by decide),
    (c10_region_roundtrip REGION_NAMES (by decide)).1 "REST_OF_WORLD" (by decide)
      "rest_of_world" (by decide),
    (c10_region_roundtrip REGION_NAMES (by decide)).2.1 "mars" (by decide)⟩
